import Mathlib

set_option linter.unusedVariables false
set_option maxRecDepth 40000
set_option maxHeartbeats 1600000

/-!
Verification of the log parsing and ingestion pipeline of the
code-deployer repository against its specification.

The Python sources embedded here (shallowly, as executable Lean
functions) are:
  - src/local/log_processor/parser.py   (LogParser: parse_log_entry,
    _store_entry, process_log_file)
  - src/local/log_processor/database.py (DatabaseManager insert/mark
    operations, including their timestamp handling)
  - src/local/log_processor/downloader.py (get_available_logs,
    get_new_logs)
  - src/remote/log_collector/http_server.py (_handle_download_log)

External effects (MySQL, HTTP, the filesystem) are modelled as explicit
oracle parameters; exceptions that escape a Python function are
modelled with Except.  Regular-expression searches from the source are
embedded as leftmost-match scanners with the exact literal patterns
used by the code.  Python re's \d is modelled as the ASCII digits
0-9 (the log grammar is ASCII).
-/

/-! ### Character and string utilities -/

/-- The ASCII apostrophe character (used inside the regex literals of
parser.py and in concrete log lines). -/
def sqc : Char := Char.ofNat 39

/-- One-character string holding an apostrophe. -/
def sqs : String := String.mk [sqc]

/-- Python whitespace for str.split / str.strip: space, tab, LF, VT, FF, CR. -/
def isSpaceC (c : Char) : Bool :=
  c = ' ' || c = Char.ofNat 9 || c = Char.ofNat 10 ||
  c = Char.ofNat 11 || c = Char.ofNat 12 || c = Char.ofNat 13

/-- ASCII decimal digit (model of regex \d on the ASCII log grammar). -/
def isDig (c : Char) : Bool := 48 ≤ c.toNat && c.toNat ≤ 57

/-- Numeric value of a digit list, most significant first
(model of Python int() on a \d+ capture). -/
def natOfDigits (ds : List Char) : Nat :=
  ds.foldl (fun a c => a * 10 + (c.toNat - 48)) 0

/-- Maximal leading run of ASCII digits, and the remainder. -/
def digitRun : List Char → List Char × List Char
  | [] => ([], [])
  | c :: cs =>
      if isDig c then
        let r := digitRun cs
        (c :: r.1, r.2)
      else ([], c :: cs)

/-- Strip an exact literal from the front of a character list
(none when the literal is not a prefix). -/
def dropLit : List Char → List Char → Option (List Char)
  | [], s => some s
  | _ :: _, [] => none
  | p :: ps, c :: cs => if p = c then dropLit ps cs else none

/-- Leftmost-match search driver: try the matcher at every suffix,
left to right (model of re.search). -/
def reSearch {α : Type} (m : List Char → Option α) : List Char → Option α
  | [] => m []
  | c :: cs =>
      match m (c :: cs) with
      | some v => some v
      | none => reSearch m cs

/-- Substring containment (model of Python `pat in line`). -/
def hasSub (pat : List Char) (s : List Char) : Bool :=
  (reSearch (fun t => dropLit pat t) s).isSome

/-- Whitespace tokenisation: model of Python str.split() with no
arguments (runs of whitespace separate tokens, no empty tokens). -/
def splitWsAux : List Char → List Char → List (List Char)
  | [], cur => if cur.isEmpty then [] else [cur.reverse]
  | c :: cs, cur =>
      if isSpaceC c then
        if cur.isEmpty then splitWsAux cs []
        else cur.reverse :: splitWsAux cs []
      else splitWsAux cs (c :: cur)

def splitWs (s : List Char) : List (List Char) := splitWsAux s []

/-- Model of Python str.strip(): drop whitespace from both ends. -/
def pyStrip (s : String) : String :=
  String.mk (((s.data.dropWhile isSpaceC).reverse.dropWhile isSpaceC).reverse)

/-! ### Regex matchers of parser.py

Each embeds one re.search call of parse_log_entry, with leftmost-match
semantics.  Patterns whose capture is followed by a closing quote keep
that requirement (the regex needs the quote right after the digits or
the 36-character class block). -/

/-- Search for `pat` followed by at least one digit; capture the
maximal digit run (model of re.search r"pat(\d+)"). -/
def searchLitNat (pat : List Char) (s : List Char) : Option Nat :=
  reSearch
    (fun t =>
      (dropLit pat t).bind fun u =>
        let r := digitRun u
        if r.1.isEmpty then none else some (natOfDigits r.1))
    s

/-- Search for `pat` followed by digits and a closing apostrophe;
capture the digits (model of re.search r"pat'(\d+)'" with the opening
apostrophe included in `pat`). -/
def searchLitNatQuoted (pat : List Char) (s : List Char) : Option Nat :=
  reSearch
    (fun t =>
      (dropLit pat t).bind fun u =>
        let r := digitRun u
        if r.1.isEmpty then none
        else
          match r.2 with
          | c :: _ => if c = sqc then some (natOfDigits r.1) else none
          | [] => none)
    s

/-- Character class [a-f0-9-] of the key-identity pattern. -/
def isIdChar (c : Char) : Bool :=
  (97 ≤ c.toNat && c.toNat ≤ 102) || isDig c || c = '-'

/-- Take exactly n characters satisfying p. -/
def takeClass (p : Char → Bool) : Nat → List Char → Option (List Char × List Char)
  | 0, s => some ([], s)
  | _ + 1, [] => none
  | n + 1, c :: cs =>
      if p c then (takeClass p n cs).map (fun r => (c :: r.1, r.2)) else none

/-- Literal prefix of the key-identity pattern: identity = apostrophe. -/
def idPat : List Char := ("identity = ").data ++ [sqc]

/-- Model of re.search r"identity = '([a-f0-9-]{36})'". -/
def searchIdentity (s : List Char) : Option String :=
  reSearch
    (fun t =>
      (dropLit idPat t).bind fun u =>
        (takeClass isIdChar 36 u).bind fun r =>
          match r.2 with
          | c :: _ => if c = sqc then some (String.mk r.1) else none
          | [] => none)
    s

/-- Literal prefix of the key-pool-type pattern. -/
def ktPat : List Char := ("KeyPoolType name = ").data ++ [sqc]

/-- Model of re.search r"KeyPoolType name = '(PUBLIC|PRIVATE|SHARED)'"
(ordered alternation, closing apostrophe required). -/
def searchKeyType (s : List Char) : Option String :=
  reSearch
    (fun t =>
      (dropLit ktPat t).bind fun u =>
        match dropLit (("PUBLIC").data ++ [sqc]) u with
        | some _ => some "PUBLIC"
        | none =>
          match dropLit (("PRIVATE").data ++ [sqc]) u with
          | some _ => some "PRIVATE"
          | none =>
            match dropLit (("SHARED").data ++ [sqc]) u with
            | some _ => some "SHARED"
            | none => none)
    s

/-! ### parse_log_entry (parser.py lines 20-117)

The Python entry dict is modelled as a structure; a missing dict key is
a `none` field.  The except clause of parse_log_entry is unreachable
(int() is only applied to \d+ captures), so the only `none` result is
the fewer-than-5-token case. -/

structure Entry where
  timestamp : String
  site_id : Option String
  raw_line : String
  log_type : String
  key_identity : Option String := none
  sequence_number : Option Nat := none
  source_site : Option Nat := none
  dest_site : Option Nat := none
  key_type : Option String := none
  latency_ms : Option Nat := none
  bits : Option Nat := none
  keys_count : Option Nat := none
  local_site : Option Nat := none
  remote_site : Option Nat := none
deriving DecidableEq, Repr

def seqNumPat : List Char := ("sequence number ").data
def srcPat : List Char := ("Source site identity = ").data ++ [sqc]
def destPat : List Char := ("Destination site identity = ").data ++ [sqc]
def msPat : List Char := ("MS=").data
def bitsPat : List Char := ("BITS=").data
def keysPat : List Char := ("KEYS=").data
def siteIdPat : List Char := ("SiteId: ").data
def remoteSitePat : List Char := ("remote site ").data

def parse_log_entry (line : String) : Option Entry :=
  let cs := line.data
  let parts := splitWs cs
  if parts.length < 5 then none
  else
    let ts := String.mk (parts.headD [])
    let sid := (parts.get? 2).map String.mk
    if hasSub ("createKey").data cs && hasSub ("sequence number").data cs then
      some { timestamp := ts, site_id := sid, raw_line := line,
             log_type := "KEY_CREATION",
             key_identity := searchIdentity cs,
             sequence_number := searchLitNat seqNumPat cs,
             source_site := searchLitNatQuoted srcPat cs,
             dest_site := searchLitNatQuoted destPat cs,
             key_type := searchKeyType cs }
    else if hasSub ("METRIC_KEY_SYNC_LATENCY").data cs then
      some { timestamp := ts, site_id := sid, raw_line := line,
             log_type := "SYNC_LATENCY",
             latency_ms := searchLitNat msPat cs }
    else if hasSub ("METRIC_RECEIVED_PUBLIC_KEY_COUNT").data cs then
      some { timestamp := ts, site_id := sid, raw_line := line,
             log_type := "KEY_COUNT",
             bits := searchLitNat bitsPat cs,
             keys_count := searchLitNat keysPat cs }
    else if hasSub ("KeyPoolController").data cs && hasSub ("remote site").data cs then
      some { timestamp := ts, site_id := sid, raw_line := line,
             log_type := "CONTROLLER_SYNC",
             local_site := searchLitNat siteIdPat cs,
             remote_site := searchLitNat remoteSitePat cs }
    else
      some { timestamp := ts, site_id := sid, raw_line := line,
             log_type := "UNKNOWN" }

/-! ### FileStats, the RecordStore oracle, and the call trace

process_log_file (parser.py lines 119-184) owns a stats dict and a
db_manager.  The db_manager is injected (parser.py takes it in its
constructor), so it is modelled as an oracle DBSpec giving the boolean
result of each insert; the calls actually issued are recorded in an
explicit trace of DBCall values. -/

structure Stats where
  total_lines : Nat
  key_creations : Nat
  sync_latency : Nat
  key_counts : Nat
  controller_syncs : Nat
  unknown : Nat
  db_errors : Nat
deriving DecidableEq, Repr

def initStats : Stats := ⟨0, 0, 0, 0, 0, 0, 0⟩

/-- Boolean results the injected db_manager returns for each insert
operation, as a function of the arguments the code passes. -/
structure DBSpec where
  keyCreationOk : String → Nat → Nat → Nat → String → String → String → Bool
  syncLatencyOk : Nat → String → String → Bool
  keyCountOk : Nat → Nat → String → String → Bool
  controllerSyncOk : Nat → Nat → String → String → Bool

/-- One database call issued by the parser, with the arguments the
Python code passes. -/
inductive DBCall where
  | keyCreation (key_identity : String) (sequence_number source_site dest_site : Nat)
      (key_type timestamp filename : String)
  | syncLatency (latency_ms : Nat) (timestamp filename : String)
  | keyCount (bits keys_count : Nat) (timestamp filename : String)
  | controllerSync (local_site remote_site : Nat) (timestamp filename : String)
  | markProcessed (filename : String) (file_size : Nat) (stats : Stats)
deriving DecidableEq, Repr

def isMarkCall : DBCall → Bool
  | DBCall.markProcessed _ _ _ => true
  | _ => false

/-- Model of LogParser._store_entry (parser.py lines 186-232): check the
required keys of the recognized variant, then issue exactly one insert;
return False with no call otherwise. -/
def store_entry (db : DBSpec) (e : Entry) (filename : String) : Bool × List DBCall :=
  if e.log_type = "KEY_CREATION" then
    match e.key_identity, e.sequence_number, e.source_site, e.dest_site, e.key_type with
    | some kid, some sq, some ss, some ds, some kt =>
        (db.keyCreationOk kid sq ss ds kt e.timestamp filename,
         [DBCall.keyCreation kid sq ss ds kt e.timestamp filename])
    | _, _, _, _, _ => (false, [])
  else if e.log_type = "SYNC_LATENCY" then
    match e.latency_ms with
    | some ms =>
        (db.syncLatencyOk ms e.timestamp filename,
         [DBCall.syncLatency ms e.timestamp filename])
    | none => (false, [])
  else if e.log_type = "KEY_COUNT" then
    match e.bits, e.keys_count with
    | some b, some k =>
        (db.keyCountOk b k e.timestamp filename,
         [DBCall.keyCount b k e.timestamp filename])
    | _, _ => (false, [])
  else if e.log_type = "CONTROLLER_SYNC" then
    match e.local_site, e.remote_site with
    | some ls, some rs =>
        (db.controllerSyncOk ls rs e.timestamp filename,
         [DBCall.controllerSync ls rs e.timestamp filename])
    | _, _ => (false, [])
  else (false, [])

/-- Per-log-type success-counter bump of process_log_file
(parser.py lines 157-168). -/
def bumpSuccess (st : Stats) (lt : String) : Stats :=
  if lt = "KEY_CREATION" then { st with key_creations := st.key_creations + 1 }
  else if lt = "SYNC_LATENCY" then { st with sync_latency := st.sync_latency + 1 }
  else if lt = "KEY_COUNT" then { st with key_counts := st.key_counts + 1 }
  else if lt = "CONTROLLER_SYNC" then { st with controller_syncs := st.controller_syncs + 1 }
  else { st with unknown := st.unknown + 1 }

/-- One iteration of the per-line loop of process_log_file
(parser.py lines 143-170): strip, skip blank lines, count, parse,
store, tally. -/
def procLine (db : DBSpec) (filename : String)
    (acc : Stats × List DBCall) (rawLine : String) : Stats × List DBCall :=
  let l := pyStrip rawLine
  if l = "" then acc
  else
    let st1 := { acc.1 with total_lines := acc.1.total_lines + 1 }
    match parse_log_entry l with
    | none => (st1, acc.2)
    | some e =>
        let r := store_entry db e filename
        let st2 :=
          if r.1 then bumpSuccess st1 e.log_type
          else if e.log_type ≠ "UNKNOWN" then
            { st1 with db_errors := st1.db_errors + 1 }
          else st1
        (st2, acc.2 ++ r.2)

/-- Model of LogParser.process_log_file (parser.py lines 119-184) on an
already-downloaded file, given as its list of physical lines.  Returns
the final stats and the trace of database calls; the trailing
mark_file_processed call is always issued and its boolean result is
discarded by the code. -/
def process_log_file (db : DBSpec) (filename : String) (file_size : Nat)
    (lines : List String) : Stats × List DBCall :=
  let r := lines.foldl (procLine db filename) (initStats, [])
  (r.1, r.2 ++ [DBCall.markProcessed filename file_size r.1])

/-! ### Spec-side helpers for the invariants of claims C2 and C9 -/

/-- The four recognized variants of the grammar. -/
def recognizedVariant (e : Entry) : Bool :=
  e.log_type = "KEY_CREATION" || e.log_type = "SYNC_LATENCY" ||
  e.log_type = "KEY_COUNT" || e.log_type = "CONTROLLER_SYNC"

/-- Whether the entry has every field required by the insert contract of
its variant (the required_keys checks of _store_entry). -/
def hasRequired (e : Entry) : Bool :=
  if e.log_type = "KEY_CREATION" then
    e.key_identity.isSome && e.sequence_number.isSome && e.source_site.isSome &&
    e.dest_site.isSome && e.key_type.isSome
  else if e.log_type = "SYNC_LATENCY" then e.latency_ms.isSome
  else if e.log_type = "KEY_COUNT" then e.bits.isSome && e.keys_count.isSome
  else if e.log_type = "CONTROLLER_SYNC" then e.local_site.isSome && e.remote_site.isSome
  else true

/-! ### database.py: timestamp parsing and the five write operations

Each write operation of DatabaseManager wraps its body in
`try ... except mysql.connector.Error`.  Only MySQL errors are caught;
the ValueError raised by datetime.strptime on a malformed timestamp
string escapes to the caller.  The MySQL transport is modelled by a
MySqlEnv oracle: whether the reconnect-if-needed step succeeds and
whether execute+commit succeeds; a raised exception is Except.error and
the number of rollback() calls is recorded. -/

inductive PyExn where
  | valueError
  | keyError (key : String)
  | typeError
deriving DecidableEq, Repr

/-- Head of Python s.split(char) for one separator: the part of the
string before the first occurrence (the whole string when absent).
Models timestamp_str.split(chr(43))[0] of database.py. -/
def pySplitPlusHead (s : String) : String :=
  String.mk (s.data.takeWhile (fun c => c != '+'))

/-- Exactly four leading ASCII digits, with their value (the CPython
strptime pattern for %Y). -/
def parse4Digits : List Char → Option (Nat × List Char)
  | a :: b :: c :: d :: rest =>
      if isDig a && isDig b && isDig c && isDig d then
        some (natOfDigits [a, b, c, d], rest)
      else none
  | _ => none

/-- Greedy run of at most two digits (the CPython strptime patterns for
%m %d %H %M %S accept one or two digits; a longer run cannot be
followed by the required separator, so it fails). -/
def parseRun2 (s : List Char) : Option (Nat × List Char) :=
  let r := digitRun s
  if r.1.length = 0 ∨ 2 < r.1.length then none
  else some (natOfDigits r.1, r.2)

def expectC (c : Char) : List Char → Option (List Char)
  | [] => none
  | d :: ds => if d = c then some ds else none

def leapYear (y : Nat) : Bool :=
  (y % 4 = 0 && y % 100 ≠ 0) || y % 400 = 0

def daysInMonth (y m : Nat) : Nat :=
  if m = 2 then (if leapYear y then 29 else 28)
  else if m = 4 || m = 6 || m = 9 || m = 11 then 30
  else 31

/-- Model of datetime.strptime(s, chr(37) ++ "Y-..."), i.e. the exact
format string of database.py: four-digit year, one-or-two-digit month /
day / hour / minute / second, one-to-six-digit fraction padded right to
microseconds, whole string consumed, all ranges validated as CPython
does (including the datetime constructor checks). A none result models
a raised ValueError. -/
def strptime_iso (s : String) : Option
    (Nat × Nat × Nat × Nat × Nat × Nat × Nat) :=
  match parse4Digits s.data with
  | none => none
  | some (y, s1) =>
  match expectC '-' s1 with
  | none => none
  | some s2 =>
  match parseRun2 s2 with
  | none => none
  | some (mo, s3) =>
  match expectC '-' s3 with
  | none => none
  | some s4 =>
  match parseRun2 s4 with
  | none => none
  | some (d, s5) =>
  match expectC 'T' s5 with
  | none => none
  | some s6 =>
  match parseRun2 s6 with
  | none => none
  | some (h, s7) =>
  match expectC ':' s7 with
  | none => none
  | some s8 =>
  match parseRun2 s8 with
  | none => none
  | some (mi, s9) =>
  match expectC ':' s9 with
  | none => none
  | some s10 =>
  match parseRun2 s10 with
  | none => none
  | some (sec, s11) =>
  match expectC '.' s11 with
  | none => none
  | some s12 =>
  let fr := digitRun s12
  if fr.1.length = 0 ∨ 6 < fr.1.length then none
  else if fr.2 ≠ [] then none
  else if y < 1 then none
  else if mo < 1 ∨ 12 < mo then none
  else if d < 1 ∨ daysInMonth y mo < d then none
  else if 23 < h then none
  else if 59 < mi then none
  else if 59 < sec then none
  else some (y, mo, d, h, mi, sec, natOfDigits fr.1 * 10 ^ (6 - fr.1.length))

/-- The timestamp conversion every insert operation of database.py
performs: strip everything from the first plus sign on, then strptime
with microsecond precision. -/
def parse_timestamp (s : String) : Option (Nat × Nat × Nat × Nat × Nat × Nat × Nat) :=
  strptime_iso (pySplitPlusHead s)

/-- MySQL transport oracle: does the reconnect-if-needed step succeed,
and does execute+commit succeed. -/
structure MySqlEnv where
  reconnectOk : Bool
  execOk : Bool
deriving DecidableEq, Repr

/-- Outcome of one DatabaseManager write operation: the value returned
(or the exception raised) and how many rollbacks were attempted. -/
structure OpResult where
  result : Except PyExn Bool
  rollbacks : Nat
deriving Repr

/-- Model of DatabaseManager.insert_key_creation (database.py lines
82-132): reconnect guard, strptime of the timestamp (ValueError
escapes: it is not a mysql.connector.Error), execute+commit returning
True, and on a MySQL error one rollback and False. -/
def insert_key_creation (env : MySqlEnv) (key_identity : String)
    (sequence_number source_site dest_site : Nat) (key_type : String)
    (timestamp_str : String) (log_file : String) : OpResult :=
  if !env.reconnectOk then ⟨Except.ok false, 0⟩
  else
    match parse_timestamp timestamp_str with
    | none => ⟨Except.error PyExn.valueError, 0⟩
    | some _ => if env.execOk then ⟨Except.ok true, 0⟩ else ⟨Except.ok false, 1⟩

/-- Model of DatabaseManager.insert_sync_latency (database.py lines
134-169); same control flow as insert_key_creation. -/
def insert_sync_latency (env : MySqlEnv) (latency_ms : Nat)
    (timestamp_str log_file : String) : OpResult :=
  if !env.reconnectOk then ⟨Except.ok false, 0⟩
  else
    match parse_timestamp timestamp_str with
    | none => ⟨Except.error PyExn.valueError, 0⟩
    | some _ => if env.execOk then ⟨Except.ok true, 0⟩ else ⟨Except.ok false, 1⟩

/-- Model of DatabaseManager.insert_key_count (database.py lines
171-207). -/
def insert_key_count (env : MySqlEnv) (bits keys_count : Nat)
    (timestamp_str log_file : String) : OpResult :=
  if !env.reconnectOk then ⟨Except.ok false, 0⟩
  else
    match parse_timestamp timestamp_str with
    | none => ⟨Except.error PyExn.valueError, 0⟩
    | some _ => if env.execOk then ⟨Except.ok true, 0⟩ else ⟨Except.ok false, 1⟩

/-- Model of DatabaseManager.insert_controller_sync (database.py lines
209-247). -/
def insert_controller_sync (env : MySqlEnv) (local_site remote_site : Nat)
    (timestamp_str log_file : String) : OpResult :=
  if !env.reconnectOk then ⟨Except.ok false, 0⟩
  else
    match parse_timestamp timestamp_str with
    | none => ⟨Except.error PyExn.valueError, 0⟩
    | some _ => if env.execOk then ⟨Except.ok true, 0⟩ else ⟨Except.ok false, 1⟩

/-- Model of DatabaseManager.mark_file_processed (database.py lines
249-292): no timestamp parsing, so no ValueError source; MySQL errors
are caught, rolled back once, and surfaced as False. -/
def mark_file_processed (env : MySqlEnv) (filename : String)
    (file_size : Nat) (stats : Stats) : OpResult :=
  if !env.reconnectOk then ⟨Except.ok false, 0⟩
  else if env.execOk then ⟨Except.ok true, 0⟩ else ⟨Except.ok false, 1⟩

/-- An operation result that models a normal boolean return (no
exception escaped). -/
def neverRaises (r : OpResult) : Bool :=
  match r.result with
  | Except.ok _ => true
  | Except.error _ => false

/-! ### downloader.py: get_available_logs and get_new_logs

requests.get and the response are modelled by an HttpOutcome value;
the JSON body by an inductive Json (none = body is not valid JSON).
requests raise_for_status raises HTTPError, a RequestException, for
status codes 400-599; response.json() raises
requests.exceptions.JSONDecodeError, also a RequestException in the
requests versions this repository runs against, so both are caught by
the except clause.  Subscripting the decoded body is plain dict
indexing: a missing key raises KeyError and a non-dict body raises
TypeError, neither of which is a RequestException, so they escape. -/

inductive Json where
  | jnull
  | jnum (n : Int)
  | jstr (s : String)
  | jarr (elems : List Json)
  | jobj (fields : List (String × Json))

/-- Python dict subscription data[k] on a decoded JSON value. -/
def jsonGet (j : Json) (k : String) : Except PyExn Json :=
  match j with
  | Json.jobj fields =>
      match fields.find? (fun f => f.1 == k) with
      | some f => Except.ok f.2
      | none => Except.error (PyExn.keyError k)
  | _ => Except.error PyExn.typeError

/-- Outcome of the GET on the listing path. -/
inductive HttpOutcome where
  | transportFail
  | response (status : Nat) (body : Option Json)

/-- Model of LogDownloader.get_available_logs (downloader.py lines
73-91).  The Except.error results model exceptions that escape the
method; the Except.ok value is what Python returns (an empty list, or
whatever data brackets-files is). -/
def get_available_logs (r : HttpOutcome) : Except PyExn Json :=
  match r with
  | HttpOutcome.transportFail => Except.ok (Json.jarr [])
  | HttpOutcome.response status body =>
      if 400 ≤ status ∧ status < 600 then Except.ok (Json.jarr [])
      else
        match body with
        | none => Except.ok (Json.jarr [])
        | some data =>
            match jsonGet data "count" with
            | Except.error e => Except.error e
            | Except.ok _ => jsonGet data "files"

/-- A listing entry; the code consults only its filename key. -/
structure LogFileEntry where
  filename : String
deriving DecidableEq, Repr

/-- Model of LogDownloader.get_new_logs (downloader.py lines 93-115)
with the listing result and the in-memory processed set passed
explicitly: the early [] return on an empty listing, then the list
comprehension keeping entries whose filename is not in the set. -/
def get_new_logs (available_logs : List LogFileEntry)
    (processed_files : List String) : List LogFileEntry :=
  if available_logs.isEmpty then []
  else available_logs.filter (fun log => !(processed_files.contains log.filename))

/-! ### http_server.py: _handle_download_log

Path resolution is modelled lexically: split on the separator and
normalise dot and dot-dot segments (the check.sh container has no
symlinks in play for these claims).  The filesystem is an oracle
telling whether the resolved path exists and is a regular file. -/

/-- Split a character list on a separator, keeping empty segments. -/
def splitSep (sep : Char) : List Char → List (List Char) → List Char → List (List Char)
  | [], accSegs, cur => (accSegs ++ [cur.reverse])
  | c :: cs, accSegs, cur =>
      if c = sep then splitSep sep cs (accSegs ++ [cur.reverse]) []
      else splitSep sep cs accSegs (c :: cur)

def pathSegs (p : String) : List (List Char) := splitSep '/' p.data [] []

def dotSeg : List Char := ['.']
def dotDotSeg : List Char := ['.', '.']

/-- Normalise the segments of an absolute path: drop empty and dot
segments, let dot-dot pop (staying at the root when already there). -/
def normSegs : List (List Char) → List (List Char) → List (List Char)
  | stack, [] => stack
  | stack, seg :: rest =>
      if seg.isEmpty || seg = dotSeg then normSegs stack rest
      else if seg = dotDotSeg then normSegs stack.dropLast rest
      else normSegs (stack ++ [seg]) rest

/-- Lexical model of pathlib Path.resolve() on an absolute path. -/
def resolvePath (p : String) : String :=
  let segs := normSegs [] (pathSegs p)
  String.mk ('/' :: (List.intercalate ['/'] segs))

/-- Model of pathlib Path(root) / name: an absolute name replaces the
root entirely. -/
def pyJoin (root name : String) : String :=
  match name.data with
  | c :: _ => if c = '/' then name else root ++ "/" ++ name
  | [] => root ++ "/"

/-- Boolean string-prefix test on characters: model of Python
str.startswith. -/
def leadsWith : List Char → List Char → Bool
  | [], _ => true
  | _ :: _, [] => false
  | p :: ps, c :: cs => p = c && leadsWith ps cs

inductive HttpReply where
  | serveFile (resolved : String)
  | forbidden
  | badRequest
  | notFound
deriving DecidableEq, Repr

/-- Model of LogAPIHandler._handle_download_log (http_server.py lines
92-111): strip the six-character "/logs/" prefix from the URL path,
join onto the configured root, resolve, compare with str.startswith
against the resolved root (403 on mismatch, 400 when resolution raises,
which the model limits to an embedded NUL byte), then serve the file or
404. -/
def handle_download_log (logRoot : String) (fileIsRegular : String → Bool)
    (urlPath : String) : HttpReply :=
  let filename := String.mk (urlPath.data.drop 6)
  let filepath := pyJoin logRoot filename
  if filepath.data.contains (Char.ofNat 0) then HttpReply.badRequest
  else
    let resolved := resolvePath filepath
    let expected_base := resolvePath logRoot
    if leadsWith expected_base.data resolved.data then
      if fileIsRegular resolved then HttpReply.serveFile resolved
      else HttpReply.notFound
    else HttpReply.forbidden

/-- Modelled from the spec: "Directory traversal must be rejected by
resolving the path and verifying it remains under the configured root."
A resolved path remains under the root iff it is the root itself or
lives inside the root directory (root followed by a separator). -/
def specUnderRoot (root p : String) : Bool :=
  p == resolvePath root || leadsWith ((resolvePath root).data ++ ['/']) p.data

/-! ### Concrete data for witnesses and counterexamples -/

/-- A store oracle whose insert_key_creation fails and whose other
inserts succeed (the store-failure-isolation scenario). -/
def kcFailDB : DBSpec :=
  ⟨fun _ _ _ _ _ _ _ => false, fun _ _ _ => true, fun _ _ _ _ => true,
   fun _ _ _ _ => true⟩

/-- A store oracle whose every insert succeeds. -/
def allTrueDB : DBSpec :=
  ⟨fun _ _ _ _ _ _ _ => true, fun _ _ _ => true, fun _ _ _ _ => true,
   fun _ _ _ _ => true⟩

/-- A fully-populated KeyCreation log line in the upstream producer
format. -/
def wl1 : String :=
  "2024-01-01T10:00:00.000+0000 SiteId: 101  INFO 26 createKey: KeyPoolService successfully created key with identity = "
  ++ sqs ++ "a1b2c3d4-e5f6-7890-abcd-ef1234567890" ++ sqs
  ++ ", sequence number 477001, and KeyPool Source site identity = "
  ++ sqs ++ "102" ++ sqs ++ ", Destination site identity = " ++ sqs ++ "101"
  ++ sqs ++ ", and KeyPoolType name = " ++ sqs ++ "PUBLIC" ++ sqs

/-- A SyncLatency log line. -/
def wl2 : String :=
  "2024-01-01T10:00:01.000+0000 SiteId: 101  INFO 26 KeySyncServiceImpl : METRIC_KEY_SYNC_LATENCY MS=85"

/-- A KeyCount log line. -/
def wl3 : String :=
  "2024-01-01T10:00:02.000+0000 SiteId: 101  INFO 26 KeySyncServiceImpl : METRIC_RECEIVED_PUBLIC_KEY_COUNT BITS=2560 KEYS=10"

/-- The parse of wl1. -/
def wE1 : Entry :=
  { timestamp := "2024-01-01T10:00:00.000+0000", site_id := some "101",
    raw_line := wl1, log_type := "KEY_CREATION",
    key_identity := some "a1b2c3d4-e5f6-7890-abcd-ef1234567890",
    sequence_number := some 477001, source_site := some 102,
    dest_site := some 101, key_type := some "PUBLIC" }

/-- The parse of wl2. -/
def wE2 : Entry :=
  { timestamp := "2024-01-01T10:00:01.000+0000", site_id := some "101",
    raw_line := wl2, log_type := "SYNC_LATENCY", latency_ms := some 85 }

/-- The parse of wl3. -/
def wE3 : Entry :=
  { timestamp := "2024-01-01T10:00:02.000+0000", site_id := some "101",
    raw_line := wl3, log_type := "KEY_COUNT", bits := some 2560,
    keys_count := some 10 }

/-- A line that classifies as KEY_CREATION (it contains createKey and a
sequence number) but lacks the identity, site and key-type fields
required by the insert contract. -/
def c2Line : String :=
  "2024-01-01T10:00:00.000+0000 SiteId: 101  INFO 26 createKey: truncated record with sequence number 42 only"

/-- The parse of c2Line. -/
def c2E : Entry :=
  { timestamp := "2024-01-01T10:00:00.000+0000", site_id := some "101",
    raw_line := c2Line, log_type := "KEY_CREATION",
    sequence_number := some 42 }

/-- A line that contains every field substring named by the round-trip
claim (identity, sequence number 477001, source 102, destination 101,
KeyPoolType PUBLIC) but not the createKey marker. -/
def c6Line : String :=
  "2024-01-01T10:00:00.000+0000 SiteId: 101  INFO 26 KeyPoolService observed key with identity = "
  ++ sqs ++ "a1b2c3d4-e5f6-7890-abcd-ef1234567890" ++ sqs
  ++ ", sequence number 477001, and KeyPool Source site identity = "
  ++ sqs ++ "102" ++ sqs ++ ", Destination site identity = " ++ sqs ++ "101"
  ++ sqs ++ ", and KeyPoolType name = " ++ sqs ++ "PUBLIC" ++ sqs

/-- The parse of c6Line: the line falls through every classification
check, hence UNKNOWN with no extracted fields. -/
def c6E : Entry :=
  { timestamp := "2024-01-01T10:00:00.000+0000", site_id := some "101",
    raw_line := c6Line, log_type := "UNKNOWN" }

/-- An entry of the UNKNOWN variant. -/
def unkE : Entry :=
  { timestamp := "t", site_id := some "x", raw_line := "r",
    log_type := "UNKNOWN" }

/-- A well-formed timestamp string in the producer format. -/
def goodTs : String := "2024-01-15T10:30:45.123+0000"


/-- Outcome shape shared by all five DatabaseManager write operations
once the timestamp (when there is one) parses: a plain boolean return,
false after one rollback on a MySQL error, false without rollback when
the reconnect guard fails. -/
def pyBoolOutcome (env : MySqlEnv) : OpResult :=
  if env.reconnectOk then
    (if env.execOk then ⟨Except.ok true, 0⟩ else ⟨Except.ok false, 1⟩)
  else ⟨Except.ok false, 0⟩

/-! ### Formatted local date-times for the timestamp round-trip claim

The producers emit timestamps as a zero-padded local date-time with a
three-digit millisecond fraction followed by a plus-signed offset
(log_generator.py).  These definitions build such a string from numeric
fields so the claim can quantify over all well-formed local date-times
and arbitrary offset suffixes. -/

def digitChar : Nat → Char
  | 0 => '0'
  | 1 => '1'
  | 2 => '2'
  | 3 => '3'
  | 4 => '4'
  | 5 => '5'
  | 6 => '6'
  | 7 => '7'
  | 8 => '8'
  | _ => '9'

def pad2 (n : Nat) : List Char := [digitChar (n / 10), digitChar (n % 10)]

def pad3 (n : Nat) : List Char :=
  [digitChar (n / 100), digitChar (n / 10 % 10), digitChar (n % 10)]

def pad4 (n : Nat) : List Char :=
  [digitChar (n / 1000), digitChar (n / 100 % 10), digitChar (n / 10 % 10),
   digitChar (n % 10)]

/-- The characters of the zero-padded local date-time
YYYY-MM-DDTHH:MM:SS.mmm. -/
def fmtTsChars (y mo d h mi s ms : Nat) : List Char :=
  pad4 y ++ '-' :: (pad2 mo ++ '-' :: (pad2 d ++ 'T' :: (pad2 h ++ ':' ::
    (pad2 mi ++ ':' :: (pad2 s ++ '.' :: pad3 ms)))))

/-- The full timestamp string: local date-time, a plus sign, and an
arbitrary offset suffix. -/
def fmtTsOffset (y mo d h mi s ms : Nat) (suffix : String) : String :=
  String.mk (fmtTsChars y mo d h mi s ms ++ '+' :: suffix.data)

/-! ## Helper lemmas -/

theorem parse_empty : parse_log_entry "" = none := by decide

theorem pyStrip_ne_of_parse {l : String} {e : Entry}
    (h : parse_log_entry (pyStrip l) = some e) : ¬ (pyStrip l = "") := by
  intro h0
  rw [h0, parse_empty] at h
  exact Option.noConfusion h

theorem store_entry_unknown (db : DBSpec) (e : Entry) (f : String)
    (h : e.log_type = "UNKNOWN") : store_entry db e f = (false, []) := by
  unfold store_entry
  rw [h]
  simp

theorem store_true_recognized {db : DBSpec} {e : Entry} {f : String}
    (h : (store_entry db e f).1 = true) : recognizedVariant e = true := by
  unfold store_entry at h
  unfold recognizedVariant
  by_cases h1 : e.log_type = "KEY_CREATION"
  · simp [h1]
  · by_cases h2 : e.log_type = "SYNC_LATENCY"
    · simp [h2]
    · by_cases h3 : e.log_type = "KEY_COUNT"
      · simp [h3]
      · by_cases h4 : e.log_type = "CONTROLLER_SYNC"
        · simp [h4]
        · simp [h1, h2, h3, h4] at h

theorem bumpSuccess_unknown_eq (st : Stats) (e : Entry)
    (h : recognizedVariant e = true) :
    (bumpSuccess st e.log_type).unknown = st.unknown := by
  unfold recognizedVariant at h
  unfold bumpSuccess
  simp only [Bool.or_eq_true, decide_eq_true_eq] at h
  rcases h with ((h | h) | h) | h <;> rw [h] <;> simp

theorem bumpSuccess_total_eq (st : Stats) (lt : String) :
    (bumpSuccess st lt).total_lines = st.total_lines := by
  unfold bumpSuccess
  by_cases h1 : lt = "KEY_CREATION"
  · simp [h1]
  · by_cases h2 : lt = "SYNC_LATENCY"
    · simp [h1, h2]
    · by_cases h3 : lt = "KEY_COUNT"
      · simp [h1, h2, h3]
      · by_cases h4 : lt = "CONTROLLER_SYNC"
        · simp [h1, h2, h3, h4]
        · simp [h1, h2, h3, h4]

theorem procLine_unknown (db : DBSpec) (f : String) (acc : Stats × List DBCall)
    (l : String) : (procLine db f acc l).1.unknown = acc.1.unknown := by
  unfold procLine
  by_cases h0 : pyStrip l = ""
  · simp [h0]
  · rw [if_neg h0]
    cases hp : parse_log_entry (pyStrip l) with
    | none => rfl
    | some e =>
        simp only
        by_cases hr : (store_entry db e f).1 = true
        · simp [hr, bumpSuccess_unknown_eq _ _ (store_true_recognized hr)]
        · simp only [Bool.not_eq_true] at hr
          by_cases ht : e.log_type = "UNKNOWN" <;> simp [hr, ht]

theorem foldl_unknown (db : DBSpec) (f : String) :
    ∀ (lines : List String) (acc : Stats × List DBCall),
      (lines.foldl (procLine db f) acc).1.unknown = acc.1.unknown := by
  intro lines
  induction lines with
  | nil => intro acc; rfl
  | cons l ls ih =>
      intro acc
      rw [List.foldl_cons, ih]
      exact procLine_unknown db f acc l

theorem procLine_total (db : DBSpec) (f : String) (acc : Stats × List DBCall)
    (l : String) :
    (procLine db f acc l).1.total_lines
      = acc.1.total_lines + (if pyStrip l = "" then 0 else 1) := by
  unfold procLine
  by_cases h0 : pyStrip l = ""
  · simp [h0]
  · rw [if_neg h0, if_neg h0]
    cases hp : parse_log_entry (pyStrip l) with
    | none => rfl
    | some e =>
        simp only
        by_cases hr : (store_entry db e f).1 = true
        · simp [hr, bumpSuccess_total_eq]
        · simp only [Bool.not_eq_true] at hr
          by_cases ht : e.log_type = "UNKNOWN" <;> simp [hr, ht]

theorem foldl_total (db : DBSpec) (f : String) :
    ∀ (lines : List String) (acc : Stats × List DBCall),
      (lines.foldl (procLine db f) acc).1.total_lines
        = acc.1.total_lines + lines.countP (fun l => !(pyStrip l == "")) := by
  intro lines
  induction lines with
  | nil => intro acc; simp
  | cons l ls ih =>
      intro acc
      rw [List.foldl_cons, ih, procLine_total, List.countP_cons]
      by_cases h0 : pyStrip l = "" <;> simp [h0] <;> omega

/-! ## Claim theorems -/

/-- C7: Catalog exactly-once filtering — for every available listing and
every set of already-processed filenames, get_new_logs returns exactly
the entries of the listing whose filename is not in the processed set,
in listing order; in particular for the listing A, B, C and a catalog
containing B the result is exactly A, C. -/
theorem c7_catalog_filtering :
    (∀ (avail : List LogFileEntry) (proc : List String) (l : LogFileEntry),
        l ∈ get_new_logs avail proc ↔ l ∈ avail ∧ proc.contains l.filename = false)
    ∧ (∀ (avail : List LogFileEntry) (proc : List String),
        get_new_logs avail proc
          = avail.filter (fun log => !(proc.contains log.filename)))
    ∧ get_new_logs [⟨"A"⟩, ⟨"B"⟩, ⟨"C"⟩] ["B"] = [⟨"A"⟩, ⟨"C"⟩] := by
  have hfilter : ∀ (avail : List LogFileEntry) (proc : List String),
      get_new_logs avail proc
        = avail.filter (fun log => !(proc.contains log.filename)) := by
    intro avail proc
    unfold get_new_logs
    by_cases h : avail.isEmpty
    · rw [if_pos h]
      rw [List.isEmpty_iff] at h
      rw [h]
      rfl
    · rw [if_neg h]
  refine ⟨?_, hfilter, by decide⟩
  intro avail proc l
  rw [hfilter]
  simp [List.mem_filter]

/-- C8: the claim states that file bytes are served only when the
resolved path remains under the configured log root, and every escaping
request is rejected.  The code checks str.startswith on the resolved
path string, so a sibling directory whose name extends the root as a
string slips through: with root /app/logs, the request
/logs/../logs2/secret.log resolves to /app/logs2/secret.log, which is
outside the root, yet the handler serves it.  This theorem evaluates
the handler at that failing input and shows the served path is not
under the root. -/
theorem c8_traversal_prefix_bug :
    handle_download_log "/app/logs" (fun _ => true) "/logs/../logs2/secret.log"
      = HttpReply.serveFile "/app/logs2/secret.log"
    ∧ specUnderRoot "/app/logs" "/app/logs2/secret.log" = false := by
  exact ⟨rfl, rfl⟩

/-- C9: an UNKNOWN entry makes _store_entry return false with no
database call; in process_log_file it increments neither the unknown
counter nor the store-error counter (only total_lines), and the final
stats of every file have unknown equal to zero. -/
theorem c9_unknown_entries :
    (∀ (db : DBSpec) (e : Entry) (f : String), e.log_type = "UNKNOWN" →
        store_entry db e f = (false, []))
    ∧ (∀ (db : DBSpec) (f : String) (acc : Stats × List DBCall) (l : String)
          (e : Entry), parse_log_entry (pyStrip l) = some e →
          e.log_type = "UNKNOWN" →
          procLine db f acc l
            = ({ acc.1 with total_lines := acc.1.total_lines + 1 }, acc.2))
    ∧ (∀ (db : DBSpec) (f : String) (fsize : Nat) (lines : List String),
        (process_log_file db f fsize lines).1.unknown = 0) := by
  refine ⟨fun db e f h => store_entry_unknown db e f h, ?_, ?_⟩
  · intro db f acc l e hp ht
    unfold procLine
    rw [if_neg (pyStrip_ne_of_parse hp), hp]
    simp only [store_entry_unknown db e f ht, ht]
    simp
  · intro db f fsize lines
    unfold process_log_file
    simp only
    rw [foldl_unknown]
    rfl

/-- C10: process_log_file counts in total_lines exactly the physical
lines that are non-empty after stripping; a blank line is skipped
before any counting, and a non-empty line with fewer than five
whitespace tokens increments total_lines and nothing else. -/
theorem c10_total_lines :
    (∀ (db : DBSpec) (f : String) (fsize : Nat) (lines : List String),
        (process_log_file db f fsize lines).1.total_lines
          = lines.countP (fun l => !(pyStrip l == "")))
    ∧ (∀ (db : DBSpec) (f : String) (acc : Stats × List DBCall) (l : String),
        pyStrip l = "" → procLine db f acc l = acc)
    ∧ (∀ (db : DBSpec) (f : String) (acc : Stats × List DBCall) (l : String),
        ¬ (pyStrip l = "") → (splitWs (pyStrip l).data).length < 5 →
        procLine db f acc l
          = ({ acc.1 with total_lines := acc.1.total_lines + 1 }, acc.2)) := by
  refine ⟨?_, ?_, ?_⟩
  · intro db f fsize lines
    unfold process_log_file
    simp only
    rw [foldl_total]
    simp [initStats]
  · intro db f acc l h
    unfold procLine
    rw [if_pos h]
  · intro db f acc l hne h5
    have hnone : parse_log_entry (pyStrip l) = none := by
      unfold parse_log_entry
      simp only
      rw [if_pos h5]
    unfold procLine
    rw [if_neg hne, hnone]

/-- C10 witness: a whitespace-only line leaves the accumulator alone;
a two-token line increments only total_lines. -/
theorem c10_total_lines_witness :
    procLine allTrueDB "f.log" (initStats, []) "   " = (initStats, [])
    ∧ procLine allTrueDB "f.log" (initStats, []) "a b"
        = ({ initStats with total_lines := initStats.total_lines + 1 }, []) :=
  ⟨c10_total_lines.2.1 allTrueDB "f.log" (initStats, []) "   " (by decide),
   c10_total_lines.2.2 allTrueDB "f.log" (initStats, []) "a b" (by decide) (by decide)⟩

/-- C9 witness: a concrete UNKNOWN entry is rejected without a call, a
concrete line parsing to UNKNOWN only bumps total_lines, and a concrete
file ends with unknown equal to zero. -/
theorem c9_unknown_entries_witness :
    store_entry allTrueDB unkE "f.log" = (false, [])
    ∧ procLine allTrueDB "f.log" (initStats, []) "alpha beta 7 delta epsilon"
        = ({ initStats with total_lines := initStats.total_lines + 1 }, [])
    ∧ (process_log_file allTrueDB "f.log" 5 ["short line", wl2]).1.unknown = 0 :=
  ⟨c9_unknown_entries.1 allTrueDB unkE "f.log" rfl,
   c9_unknown_entries.2.1 allTrueDB "f.log" (initStats, [])
     "alpha beta 7 delta epsilon"
     { timestamp := "alpha", site_id := some "7",
       raw_line := "alpha beta 7 delta epsilon", log_type := "UNKNOWN" }
     (by decide) rfl,
   c9_unknown_entries.2.2 allTrueDB "f.log" 5 ["short line", wl2]⟩

/-- C5 counterexample: the claim says get_available_logs returns a list
without raising even when the JSON body lacks the count or files keys;
on a 200 response whose valid JSON object has neither key, the code
evaluates data["count"] and the uncaught KeyError escapes the method. -/
theorem c5_counterexample :
    get_available_logs
        (HttpOutcome.response 200 (some (Json.jobj [("filecount", Json.jnum 2)])))
      = Except.error (PyExn.keyError "count") := rfl

/-- C5 (amended): get_available_logs returns a list without raising on
a transport failure, on a 4xx/5xx status, and on a body that is not
valid JSON — the empty list in each case — and returns the files value
on success; but a JSON body lacking the count key (or, with count
present, the files key) raises KeyError to the caller instead of
degrading to an empty list. -/
theorem c5_listing_errors_amended :
    (get_available_logs HttpOutcome.transportFail = Except.ok (Json.jarr []))
    ∧ (∀ (s : Nat) (b : Option Json), 400 ≤ s → s < 600 →
        get_available_logs (HttpOutcome.response s b) = Except.ok (Json.jarr []))
    ∧ (∀ s : Nat, ¬ (400 ≤ s ∧ s < 600) →
        get_available_logs (HttpOutcome.response s none) = Except.ok (Json.jarr []))
    ∧ (∀ (s : Nat) (fields : List (String × Json)) (c v : String × Json),
        ¬ (400 ≤ s ∧ s < 600) →
        fields.find? (fun f => f.1 == "count") = some c →
        fields.find? (fun f => f.1 == "files") = some v →
        get_available_logs (HttpOutcome.response s (some (Json.jobj fields)))
          = Except.ok v.2)
    ∧ (∀ (s : Nat) (fields : List (String × Json)),
        ¬ (400 ≤ s ∧ s < 600) →
        fields.find? (fun f => f.1 == "count") = none →
        get_available_logs (HttpOutcome.response s (some (Json.jobj fields)))
          = Except.error (PyExn.keyError "count")) := by
  refine ⟨rfl, ?_, ?_, ?_, ?_⟩
  · intro s b h1 h2
    simp only [get_available_logs]
    rw [if_pos ⟨h1, h2⟩]
  · intro s h
    simp only [get_available_logs]
    rw [if_neg h]
  · intro s fields c v h hc hv
    simp only [get_available_logs]
    rw [if_neg h]
    simp only [jsonGet, hc, hv]
  · intro s fields h hc
    simp only [get_available_logs]
    rw [if_neg h]
    simp only [jsonGet, hc]

/-- C5 witness: concrete instances of the amended clauses — a 500
status, an invalid body on a 200, and a well-formed body whose files
value is returned. -/
theorem c5_listing_errors_amended_witness :
    get_available_logs (HttpOutcome.response 500 none) = Except.ok (Json.jarr [])
    ∧ get_available_logs (HttpOutcome.response 200 none) = Except.ok (Json.jarr [])
    ∧ get_available_logs
        (HttpOutcome.response 200
          (some (Json.jobj
            [("count", Json.jnum 1), ("files", Json.jarr [Json.jstr "a.log"])])))
        = Except.ok (Json.jarr [Json.jstr "a.log"]) :=
  ⟨c5_listing_errors_amended.2.1 500 none (by decide) (by decide),
   c5_listing_errors_amended.2.2.1 200 (by decide),
   c5_listing_errors_amended.2.2.2.1 200
     [("count", Json.jnum 1), ("files", Json.jarr [Json.jstr "a.log"])]
     ("count", Json.jnum 1) ("files", Json.jarr [Json.jstr "a.log"])
     (by decide) rfl rfl⟩

/-- C3 counterexample: the claim says every store write operation
returns a boolean and never raises for every input including a
malformed timestamp string; with a healthy connection and the timestamp
string "garbage", insert_key_creation raises ValueError (strptime's
exception is not a mysql.connector.Error, so the except clause does not
catch it). -/
theorem c3_counterexample :
    insert_key_creation ⟨true, true⟩ "k" 1 1 2 "PUBLIC" "garbage" "f.log"
      = ⟨Except.error PyExn.valueError, 0⟩ := rfl

/-- C3 (amended): every DatabaseManager write operation returns a plain
boolean — true on success, false after exactly one rollback on a MySQL
error, false without rollback when the reconnect guard fails — and
never raises, provided its timestamp string parses
(mark_file_processed parses no timestamp and never raises at all); a
timestamp string that does not parse raises ValueError instead, as the
counterexample shows. -/
theorem c3_store_errors_amended :
    (∀ (env : MySqlEnv) (kid : String) (sq ss ds : Nat) (kt ts lf : String)
        (dt : Nat × Nat × Nat × Nat × Nat × Nat × Nat),
        parse_timestamp ts = some dt →
        insert_key_creation env kid sq ss ds kt ts lf = pyBoolOutcome env
        ∧ neverRaises (insert_key_creation env kid sq ss ds kt ts lf) = true)
    ∧ (∀ (env : MySqlEnv) (ms : Nat) (ts lf : String)
        (dt : Nat × Nat × Nat × Nat × Nat × Nat × Nat),
        parse_timestamp ts = some dt →
        insert_sync_latency env ms ts lf = pyBoolOutcome env
        ∧ neverRaises (insert_sync_latency env ms ts lf) = true)
    ∧ (∀ (env : MySqlEnv) (b k : Nat) (ts lf : String)
        (dt : Nat × Nat × Nat × Nat × Nat × Nat × Nat),
        parse_timestamp ts = some dt →
        insert_key_count env b k ts lf = pyBoolOutcome env
        ∧ neverRaises (insert_key_count env b k ts lf) = true)
    ∧ (∀ (env : MySqlEnv) (ls rs : Nat) (ts lf : String)
        (dt : Nat × Nat × Nat × Nat × Nat × Nat × Nat),
        parse_timestamp ts = some dt →
        insert_controller_sync env ls rs ts lf = pyBoolOutcome env
        ∧ neverRaises (insert_controller_sync env ls rs ts lf) = true)
    ∧ (∀ (env : MySqlEnv) (f : String) (fs : Nat) (st : Stats),
        mark_file_processed env f fs st = pyBoolOutcome env
        ∧ neverRaises (mark_file_processed env f fs st) = true) := by
  have hout : ∀ env : MySqlEnv, neverRaises (pyBoolOutcome env) = true := by
    intro env
    unfold pyBoolOutcome neverRaises
    rcases env with ⟨r, x⟩
    cases r <;> cases x <;> rfl
  refine ⟨?_, ?_, ?_, ?_, ?_⟩
  · intro env kid sq ss ds kt ts lf dt hts
    have heq : insert_key_creation env kid sq ss ds kt ts lf = pyBoolOutcome env := by
      unfold insert_key_creation pyBoolOutcome
      rcases env with ⟨r, x⟩
      cases r
      · rfl
      · rw [hts]; cases x <;> rfl
    exact ⟨heq, heq ▸ hout env⟩
  · intro env ms ts lf dt hts
    have heq : insert_sync_latency env ms ts lf = pyBoolOutcome env := by
      unfold insert_sync_latency pyBoolOutcome
      rcases env with ⟨r, x⟩
      cases r
      · rfl
      · rw [hts]; cases x <;> rfl
    exact ⟨heq, heq ▸ hout env⟩
  · intro env b k ts lf dt hts
    have heq : insert_key_count env b k ts lf = pyBoolOutcome env := by
      unfold insert_key_count pyBoolOutcome
      rcases env with ⟨r, x⟩
      cases r
      · rfl
      · rw [hts]; cases x <;> rfl
    exact ⟨heq, heq ▸ hout env⟩
  · intro env ls rs ts lf dt hts
    have heq : insert_controller_sync env ls rs ts lf = pyBoolOutcome env := by
      unfold insert_controller_sync pyBoolOutcome
      rcases env with ⟨r, x⟩
      cases r
      · rfl
      · rw [hts]; cases x <;> rfl
    exact ⟨heq, heq ▸ hout env⟩
  · intro env f fs st
    have heq : mark_file_processed env f fs st = pyBoolOutcome env := by
      unfold mark_file_processed pyBoolOutcome
      rcases env with ⟨r, x⟩
      cases r
      · rfl
      · cases x <;> rfl
    exact ⟨heq, heq ▸ hout env⟩

/-- C3 witness: with a healthy connection and a failing statement, an
insert with a well-formed timestamp returns false after one rollback;
with everything healthy it returns true; mark_file_processed follows
the same shape. -/
theorem c3_store_errors_amended_witness :
    insert_key_creation ⟨true, false⟩ "k" 1 1 2 "PUBLIC" goodTs "f.log"
      = ⟨Except.ok false, 1⟩
    ∧ insert_sync_latency ⟨true, true⟩ 85 goodTs "f.log" = ⟨Except.ok true, 0⟩
    ∧ insert_key_count ⟨false, true⟩ 2560 10 goodTs "f.log" = ⟨Except.ok false, 0⟩
    ∧ insert_controller_sync ⟨true, true⟩ 101 102 goodTs "f.log"
      = ⟨Except.ok true, 0⟩
    ∧ mark_file_processed ⟨true, false⟩ "f.log" 9 initStats = ⟨Except.ok false, 1⟩ :=
  ⟨(c3_store_errors_amended.1 ⟨true, false⟩ "k" 1 1 2 "PUBLIC" goodTs "f.log"
      (2024, 1, 15, 10, 30, 45, 123000) rfl).1,
   (c3_store_errors_amended.2.1 ⟨true, true⟩ 85 goodTs "f.log"
      (2024, 1, 15, 10, 30, 45, 123000) rfl).1,
   (c3_store_errors_amended.2.2.1 ⟨false, true⟩ 2560 10 goodTs "f.log"
      (2024, 1, 15, 10, 30, 45, 123000) rfl).1,
   (c3_store_errors_amended.2.2.2.1 ⟨true, true⟩ 101 102 goodTs "f.log"
      (2024, 1, 15, 10, 30, 45, 123000) rfl).1,
   (c3_store_errors_amended.2.2.2.2 ⟨true, false⟩ "f.log" 9 initStats).1⟩

/-- C6 counterexample: the claim quantifies over every line containing
the five field substrings (identity ..., sequence number 477001, Source
site 102, Destination site 101, KeyPoolType PUBLIC); c6Line contains
all five yet lacks the createKey marker, so classification falls
through to UNKNOWN and no field is extracted — in particular log_type
is not KEY_CREATION and key_identity is absent. -/
theorem c6_counterexample :
    hasSub (("identity = ").data ++ [sqc]
        ++ ("a1b2c3d4-e5f6-7890-abcd-ef1234567890").data ++ [sqc]) c6Line.data = true
    ∧ hasSub ("sequence number 477001").data c6Line.data = true
    ∧ hasSub (("Source site identity = ").data ++ [sqc] ++ ("102").data ++ [sqc])
        c6Line.data = true
    ∧ hasSub (("Destination site identity = ").data ++ [sqc] ++ ("101").data ++ [sqc])
        c6Line.data = true
    ∧ hasSub (("KeyPoolType name = ").data ++ [sqc] ++ ("PUBLIC").data ++ [sqc])
        c6Line.data = true
    ∧ parse_log_entry c6Line = some c6E
    ∧ c6E.log_type = "UNKNOWN"
    ∧ c6E.key_identity = none := by
  refine ⟨rfl, rfl, rfl, rfl, rfl, ?_, rfl, rfl⟩
  decide

/-- C6 (amended): for every line with at least five whitespace tokens
that contains the createKey and sequence-number markers and whose
leftmost pattern matches yield identity
a1b2c3d4-e5f6-7890-abcd-ef1234567890, sequence number 477001, source
site 102, destination site 101 and key-pool type PUBLIC, parse_log_entry
produces a KEY_CREATION record carrying exactly those field values. -/
theorem c6_roundtrip_amended (l : String)
    (h5 : ¬ (splitWs l.data).length < 5)
    (hck : hasSub ("createKey").data l.data = true)
    (hsn : hasSub ("sequence number").data l.data = true)
    (hid : searchIdentity l.data = some "a1b2c3d4-e5f6-7890-abcd-ef1234567890")
    (hsq : searchLitNat seqNumPat l.data = some 477001)
    (hss : searchLitNatQuoted srcPat l.data = some 102)
    (hds : searchLitNatQuoted destPat l.data = some 101)
    (hkt : searchKeyType l.data = some "PUBLIC") :
    ∃ e : Entry, parse_log_entry l = some e
      ∧ e.log_type = "KEY_CREATION"
      ∧ e.key_identity = some "a1b2c3d4-e5f6-7890-abcd-ef1234567890"
      ∧ e.sequence_number = some 477001
      ∧ e.source_site = some 102
      ∧ e.dest_site = some 101
      ∧ e.key_type = some "PUBLIC" := by
  unfold parse_log_entry
  rw [if_neg h5, hck, hsn]
  simp only [Bool.and_self]
  exact ⟨_, rfl, rfl, hid, hsq, hss, hds, hkt⟩

/-- C6 witness: the canonical well-formed KeyCreation line wl1
instantiates the amended round-trip claim. -/
theorem c6_roundtrip_amended_witness :
    ∃ e : Entry, parse_log_entry wl1 = some e
      ∧ e.log_type = "KEY_CREATION"
      ∧ e.key_identity = some "a1b2c3d4-e5f6-7890-abcd-ef1234567890"
      ∧ e.sequence_number = some 477001
      ∧ e.source_site = some 102
      ∧ e.dest_site = some 101
      ∧ e.key_type = some "PUBLIC" :=
  c6_roundtrip_amended wl1 (by decide) rfl rfl rfl rfl rfl rfl rfl

/-- C2 counterexample: c2Line classifies as KEY_CREATION but lacks the
key-identity field required by the insert contract.  The claim says
such a record is counted as unknown/skipped and increments no error
counter; the code counts it in db_errors (and not in unknown) while the
trace shows the only database call of the file is mark_file_processed. -/
theorem c2_counterexample :
    parse_log_entry c2Line = some c2E
    ∧ c2E.log_type = "KEY_CREATION"
    ∧ c2E.key_identity = none
    ∧ process_log_file allTrueDB "f.log" 10 [c2Line]
        = (⟨1, 0, 0, 0, 0, 0, 1⟩,
           [DBCall.markProcessed "f.log" 10 ⟨1, 0, 0, 0, 0, 0, 1⟩]) := by
  refine ⟨by decide, rfl, rfl, by decide⟩

/-- C2 (amended): a line classified into a recognized variant with at
least one required field missing triggers no store insert (no partial
storage) and increments no type-specific success counter and not the
unknown counter; it is tallied in the store-error counter db_errors. -/
theorem c2_missing_required_amended (db : DBSpec) (f : String)
    (acc : Stats × List DBCall) (l : String) (e : Entry)
    (hp : parse_log_entry (pyStrip l) = some e)
    (hrec : recognizedVariant e = true)
    (hmiss : hasRequired e = false) :
    store_entry db e f = (false, [])
    ∧ procLine db f acc l
        = ({ acc.1 with
              total_lines := acc.1.total_lines + 1,
              db_errors := acc.1.db_errors + 1 }, acc.2) := by
  have hne : e.log_type ≠ "UNKNOWN" := by
    unfold recognizedVariant at hrec
    simp only [Bool.or_eq_true, decide_eq_true_eq] at hrec
    rcases hrec with ((h | h) | h) | h <;> rw [h] <;> decide
  have hstore : store_entry db e f = (false, []) := by
    obtain ⟨ts, sid, raw, lt, ki, sq, ss, ds, kt, ms, b, k, ls, rs⟩ := e
    unfold recognizedVariant at hrec
    unfold hasRequired at hmiss
    unfold store_entry
    simp only [Bool.or_eq_true, decide_eq_true_eq] at hrec
    rcases hrec with ((h | h) | h) | h <;> subst h
    · rcases ki with _ | ki <;> rcases sq with _ | sq <;> rcases ss with _ | ss <;>
        rcases ds with _ | ds <;> rcases kt with _ | kt <;> simp_all
    · rcases ms with _ | ms <;> simp_all
    · rcases b with _ | b <;> rcases k with _ | k <;> simp_all
    · rcases ls with _ | ls <;> rcases rs with _ | rs <;> simp_all
  refine ⟨hstore, ?_⟩
  unfold procLine
  rw [if_neg (pyStrip_ne_of_parse hp), hp]
  simp only [hstore, if_pos hne]
  simp

/-- C2 witness: the amended claim instantiated at c2Line with an
all-successful store oracle. -/
theorem c2_missing_required_amended_witness :
    store_entry allTrueDB c2E "f.log" = (false, [])
    ∧ procLine allTrueDB "f.log" (initStats, []) c2Line
        = ({ initStats with
              total_lines := initStats.total_lines + 1,
              db_errors := initStats.db_errors + 1 }, []) :=
  c2_missing_required_amended allTrueDB "f.log" (initStats, []) c2Line c2E
    (by decide) rfl rfl

/-- C1: store-failure isolation — in a 3-record file whose first line
parses to a fully-populated KeyCreation for which the store returns
false, whose second parses to a SyncLatency stored successfully and
whose third parses to a KeyCount stored successfully, process_log_file
keeps going past the failed record and returns stats with db_errors 1,
sync_latency 1 and key_counts 1, and the call trace contains exactly
one mark_file_processed call. -/
theorem c1_store_failure_isolation (db : DBSpec) (f : String) (fsize : Nat)
    (l1 l2 l3 : String) (e1 e2 e3 : Entry) (kid : String) (sq ss ds : Nat)
    (kt : String) (ms b k : Nat)
    (hp1 : parse_log_entry (pyStrip l1) = some e1)
    (h1t : e1.log_type = "KEY_CREATION")
    (h1a : e1.key_identity = some kid)
    (h1b : e1.sequence_number = some sq)
    (h1c : e1.source_site = some ss)
    (h1d : e1.dest_site = some ds)
    (h1e : e1.key_type = some kt)
    (h1f : db.keyCreationOk kid sq ss ds kt e1.timestamp f = false)
    (hp2 : parse_log_entry (pyStrip l2) = some e2)
    (h2t : e2.log_type = "SYNC_LATENCY")
    (h2a : e2.latency_ms = some ms)
    (h2f : db.syncLatencyOk ms e2.timestamp f = true)
    (hp3 : parse_log_entry (pyStrip l3) = some e3)
    (h3t : e3.log_type = "KEY_COUNT")
    (h3a : e3.bits = some b)
    (h3b : e3.keys_count = some k)
    (h3f : db.keyCountOk b k e3.timestamp f = true) :
    (process_log_file db f fsize [l1, l2, l3]).1.db_errors = 1
    ∧ (process_log_file db f fsize [l1, l2, l3]).1.sync_latency = 1
    ∧ (process_log_file db f fsize [l1, l2, l3]).1.key_counts = 1
    ∧ ((process_log_file db f fsize [l1, l2, l3]).2.countP isMarkCall) = 1 := by
  have hs1 : store_entry db e1 f
      = (false, [DBCall.keyCreation kid sq ss ds kt e1.timestamp f]) := by
    unfold store_entry
    rw [h1t]
    simp only [String.reduceEq, reduceIte, h1a, h1b, h1c, h1d, h1e, h1f]
  have hs2 : store_entry db e2 f
      = (true, [DBCall.syncLatency ms e2.timestamp f]) := by
    unfold store_entry
    rw [h2t]
    simp only [String.reduceEq, reduceIte, h2a, h2f]
  have hs3 : store_entry db e3 f
      = (true, [DBCall.keyCount b k e3.timestamp f]) := by
    unfold store_entry
    rw [h3t]
    simp only [String.reduceEq, reduceIte, h3a, h3b, h3f]
  have step1 : ∀ t : List DBCall, procLine db f (initStats, t) l1
      = (⟨1, 0, 0, 0, 0, 0, 1⟩, t ++ [DBCall.keyCreation kid sq ss ds kt e1.timestamp f]) := by
    intro t
    unfold procLine
    rw [if_neg (pyStrip_ne_of_parse hp1), hp1]
    simp only [hs1, h1t]
    simp [initStats]
  have step2 : ∀ t : List DBCall, procLine db f (⟨1, 0, 0, 0, 0, 0, 1⟩, t) l2
      = (⟨2, 0, 1, 0, 0, 0, 1⟩, t ++ [DBCall.syncLatency ms e2.timestamp f]) := by
    intro t
    unfold procLine
    rw [if_neg (pyStrip_ne_of_parse hp2), hp2]
    simp only [hs2, h2t]
    simp [bumpSuccess]
  have step3 : ∀ t : List DBCall, procLine db f (⟨2, 0, 1, 0, 0, 0, 1⟩, t) l3
      = (⟨3, 0, 1, 1, 0, 0, 1⟩, t ++ [DBCall.keyCount b k e3.timestamp f]) := by
    intro t
    unfold procLine
    rw [if_neg (pyStrip_ne_of_parse hp3), hp3]
    simp only [hs3, h3t]
    simp [bumpSuccess]
  have hrun : process_log_file db f fsize [l1, l2, l3]
      = (⟨3, 0, 1, 1, 0, 0, 1⟩,
         [DBCall.keyCreation kid sq ss ds kt e1.timestamp f,
          DBCall.syncLatency ms e2.timestamp f,
          DBCall.keyCount b k e3.timestamp f,
          DBCall.markProcessed f fsize ⟨3, 0, 1, 1, 0, 0, 1⟩]) := by
    unfold process_log_file
    rw [List.foldl_cons, List.foldl_cons, List.foldl_cons, List.foldl_nil]
    rw [step1 [], step2 _, step3 _]
    simp
  rw [hrun]
  refine ⟨rfl, rfl, rfl, ?_⟩
  simp [List.countP_cons, isMarkCall]

/-- C1 witness: the scenario instantiated with concrete log lines and a
store oracle whose insert_key_creation fails while the other inserts
succeed. -/
theorem c1_store_failure_isolation_witness :
    (process_log_file kcFailDB "f.log" 100 [wl1, wl2, wl3]).1.db_errors = 1
    ∧ (process_log_file kcFailDB "f.log" 100 [wl1, wl2, wl3]).1.sync_latency = 1
    ∧ (process_log_file kcFailDB "f.log" 100 [wl1, wl2, wl3]).1.key_counts = 1
    ∧ ((process_log_file kcFailDB "f.log" 100 [wl1, wl2, wl3]).2.countP isMarkCall) = 1 :=
  c1_store_failure_isolation kcFailDB "f.log" 100 wl1 wl2 wl3 wE1 wE2 wE3
    "a1b2c3d4-e5f6-7890-abcd-ef1234567890" 477001 102 101 "PUBLIC" 85 2560 10
    (by decide) rfl rfl rfl rfl rfl rfl rfl
    (by decide) rfl rfl rfl
    (by decide) rfl rfl rfl rfl

/-! ## Lemmas for the timestamp round trip (C4) -/

theorem data_mk (l : List Char) : (String.mk l).data = l := rfl

theorem digitChar_isDig : ∀ n < 10, isDig (digitChar n) = true := by decide

theorem digitChar_val : ∀ n < 10, (digitChar n).toNat - 48 = n := by decide

theorem digitChar_ne_plus (n : Nat) : (digitChar n != '+') = true := by
  unfold digitChar
  split <;> decide

theorem takeWhile_all_append (p : Char → Bool) (x : Char) (t : List Char)
    (hx : p x = false) :
    ∀ l : List Char, (∀ c ∈ l, p c = true) →
      (l ++ x :: t).takeWhile p = l := by
  intro l
  induction l with
  | nil =>
      intro _
      simp [List.takeWhile_cons, hx]
  | cons a l ih =>
      intro hall
      have ha : p a = true := hall a (by simp)
      simp only [List.cons_append, List.takeWhile_cons, ha, if_true]
      rw [ih (fun c hc => hall c (by simp [hc]))]

theorem fmt_all_ne_plus (y mo d h mi s ms : Nat) :
    ∀ c ∈ fmtTsChars y mo d h mi s ms, (c != '+') = true := by
  unfold fmtTsChars pad4 pad2 pad3
  intro c hc
  simp only [List.mem_append, List.mem_cons, List.not_mem_nil, or_false] at hc
  rcases hc with ((h | h | h | h) | h | (h | h) | h | (h | h) | h | (h | h) | h |
      (h | h) | h | (h | h) | h | h | h | h) <;>
    first
      | (subst h; exact digitChar_ne_plus _)
      | (subst h; decide)

theorem pySplit_fmt (y mo d h mi s ms : Nat) (suffix : String) :
    pySplitPlusHead (fmtTsOffset y mo d h mi s ms suffix)
      = String.mk (fmtTsChars y mo d h mi s ms) := by
  unfold pySplitPlusHead fmtTsOffset
  rw [data_mk]
  rw [takeWhile_all_append _ _ _ (by decide) _ (fmt_all_ne_plus y mo d h mi s ms)]

theorem digitRun_cons_digit (a : Char) (ha : isDig a = true) (l : List Char) :
    digitRun (a :: l) = (a :: (digitRun l).1, (digitRun l).2) := by
  simp only [digitRun, ha, reduceIte]

theorem digitRun_cons_nondigit (c : Char) (hc : isDig c = false) (l : List Char) :
    digitRun (c :: l) = ([], c :: l) := by
  simp only [digitRun, hc]
  simp

theorem pad4_parse (y : Nat) (rest : List Char) (hy : y ≤ 9999) :
    parse4Digits (pad4 y ++ rest) = some (y, rest) := by
  have h1 : y / 1000 < 10 := by omega
  have h2 : y / 100 % 10 < 10 := by omega
  have h3 : y / 10 % 10 < 10 := by omega
  have h4 : y % 10 < 10 := by omega
  unfold pad4 parse4Digits
  simp only [List.cons_append, List.nil_append]
  rw [digitChar_isDig _ h1, digitChar_isDig _ h2, digitChar_isDig _ h3,
    digitChar_isDig _ h4]
  simp only [Bool.and_self, if_true]
  have hval : natOfDigits [digitChar (y / 1000), digitChar (y / 100 % 10),
      digitChar (y / 10 % 10), digitChar (y % 10)] = y := by
    unfold natOfDigits
    simp only [List.foldl_cons, List.foldl_nil]
    rw [digitChar_val _ h1, digitChar_val _ h2, digitChar_val _ h3,
      digitChar_val _ h4]
    omega
  rw [hval]

theorem pad2_parseRun2 (n : Nat) (hn : n ≤ 99) (c : Char) (rest : List Char)
    (hc : isDig c = false) :
    parseRun2 (pad2 n ++ c :: rest) = some (n, c :: rest) := by
  have h1 : n / 10 < 10 := by omega
  have h2 : n % 10 < 10 := by omega
  unfold pad2 parseRun2
  simp only [List.cons_append, List.nil_append]
  rw [digitRun_cons_digit _ (digitChar_isDig _ h1),
    digitRun_cons_digit _ (digitChar_isDig _ h2),
    digitRun_cons_nondigit _ hc]
  simp only
  rw [if_neg (by simp)]
  have hval : natOfDigits [digitChar (n / 10), digitChar (n % 10)] = n := by
    unfold natOfDigits
    simp only [List.foldl_cons, List.foldl_nil]
    rw [digitChar_val _ h1, digitChar_val _ h2]
    omega
  rw [hval]

theorem pad3_digitRun (n : Nat) (hn : n ≤ 999) :
    digitRun (pad3 n) = (pad3 n, []) ∧ natOfDigits (pad3 n) = n := by
  have h1 : n / 100 < 10 := by omega
  have h2 : n / 10 % 10 < 10 := by omega
  have h3 : n % 10 < 10 := by omega
  unfold pad3
  constructor
  · rw [digitRun_cons_digit _ (digitChar_isDig _ h1),
      digitRun_cons_digit _ (digitChar_isDig _ h2),
      digitRun_cons_digit _ (digitChar_isDig _ h3)]
    rfl
  · unfold natOfDigits
    simp only [List.foldl_cons, List.foldl_nil]
    rw [digitChar_val _ h1, digitChar_val _ h2, digitChar_val _ h3]
    omega

theorem daysInMonth_le (y m : Nat) : daysInMonth y m ≤ 31 := by
  unfold daysInMonth
  split_ifs <;> omega

theorem pad3_length (n : Nat) : (pad3 n).length = 3 := by
  simp [pad3]

/-- C4 counterexample: the claim quantifies over every numeric
UTC-offset suffix, but split on the plus sign only strips plus-signed
suffixes; with the minus-signed offset -0500 nothing is stripped,
strptime fails, and the store operation raises ValueError instead of
storing the naive local value. -/
theorem c4_counterexample :
    parse_timestamp "2024-01-15T10:30:45.123-0500" = none
    ∧ insert_sync_latency ⟨true, true⟩ 85 "2024-01-15T10:30:45.123-0500" "f.log"
        = ⟨Except.error PyExn.valueError, 0⟩ := ⟨rfl, rfl⟩

/-- C4 (amended): for every timestamp string consisting of a
well-formed local date-time with fractional seconds followed by a
PLUS-signed offset suffix (of arbitrary content), the store operations
strip the suffix without applying it and parse the remainder as a naive
local value with microsecond precision; a minus-signed suffix is not
stripped and the parse raises ValueError instead (see the
counterexample). -/
theorem c4_offset_discarded_amended (y mo d h mi s ms : Nat) (suffix : String)
    (hy1 : 1 ≤ y) (hy : y ≤ 9999) (hmo1 : 1 ≤ mo) (hmo : mo ≤ 12)
    (hd1 : 1 ≤ d) (hd : d ≤ daysInMonth y mo) (hh : h ≤ 23) (hmi : mi ≤ 59)
    (hs : s ≤ 59) (hms : ms ≤ 999) :
    parse_timestamp (fmtTsOffset y mo d h mi s ms suffix)
      = some (y, mo, d, h, mi, s, ms * 1000) := by
  have hd99 : d ≤ 99 := le_trans hd (le_trans (daysInMonth_le y mo) (by omega))
  unfold parse_timestamp
  rw [pySplit_fmt]
  unfold strptime_iso
  rw [data_mk]
  unfold fmtTsChars
  rw [pad4_parse _ _ hy]
  simp only []
  simp only [expectC, reduceIte]
  rw [pad2_parseRun2 _ (by omega) _ _ (by decide)]
  simp only []
  simp only [expectC, reduceIte]
  rw [pad2_parseRun2 _ hd99 _ _ (by decide)]
  simp only []
  simp only [expectC, reduceIte]
  rw [pad2_parseRun2 _ (by omega) _ _ (by decide)]
  simp only []
  simp only [expectC, reduceIte]
  rw [pad2_parseRun2 _ (by omega) _ _ (by decide)]
  simp only []
  simp only [expectC, reduceIte]
  rw [pad2_parseRun2 _ (by omega) _ _ (by decide)]
  simp only []
  simp only [expectC, reduceIte]
  rw [(pad3_digitRun ms hms).1]
  simp only []
  rw [if_neg (by rw [pad3_length]; omega)]
  rw [if_neg (by simp)]
  rw [if_neg (by omega)]
  rw [if_neg (by omega)]
  rw [if_neg (by omega)]
  rw [if_neg (by omega)]
  rw [if_neg (by omega)]
  rw [if_neg (by omega)]
  rw [(pad3_digitRun ms hms).2, pad3_length]
  norm_num

/-- C4 witness: the amended round trip instantiated at
2024-01-15T10:30:45.123+0000, giving the naive local value with
microsecond precision and the offset discarded. -/
theorem c4_offset_discarded_amended_witness :
    parse_timestamp (fmtTsOffset 2024 1 15 10 30 45 123 "0000")
      = some (2024, 1, 15, 10, 30, 45, 123 * 1000) :=
  c4_offset_discarded_amended 2024 1 15 10 30 45 123 "0000"
    (by omega) (by omega) (by omega) (by omega) (by omega) (by decide)
    (by omega) (by omega) (by omega) (by omega)
